import Mathlib

/-! Shallow embedding of the two installed-tool counters of libmacchina's
shared module (`src/shared/cargo.rs` and `src/shared/uv.rs`), together with
the directory-resolution helpers of the vendored `uv_dirs` module.

External state is passed explicitly:
* the process environment is a map from variable name to optional value
  (`none` models an unset variable);
* the filesystem is a map from a path to the optional result of `read_dir`
  (`none` models a `read_dir` error); each yielded item is an optional
  entry, with `none` modelling an item that errors during iteration;
* the `Platform` structure carries the results of the external `etcetera`
  crate calls (`choose_base_strategy().data_dir()`,
  `choose_native_strategy().data_dir()`, `home_dir()`) and the
  `cfg!(windows)` flag; `home::cargo_home()` is likewise passed as an
  explicit optional path.
Paths are strings with Unix conventions. -/

/-- The process environment as read by `std::env::var_os`: `none` is unset. -/
abbrev Env := String → Option String

/-- Unix-style absoluteness check, modelling `std::path::Path::is_absolute`. -/
def isAbsolutePath (p : String) : Bool :=
  match p.data with
  | [] => false
  | c :: _ => c = '/'

/-- `PathBuf::join` with one component: an absolute argument replaces the
base, a relative one is appended with a separator (appending to the empty
path yields the component itself). -/
def joinPath (p q : String) : String :=
  if isAbsolutePath q then q
  else if p = "" then q
  else p ++ "/" ++ q

/-- One entry yielded by directory iteration: `fileTypeIsDir` is the result
of `entry.file_type().map(|t| t.is_dir())`, with `none` modelling a
`file_type()` error. -/
structure DirEntry where
  fileTypeIsDir : Option Bool
deriving DecidableEq

/-- The filesystem as seen through `std::fs::read_dir`. -/
abbrev FS := String → Option (List (Option DirEntry))

/-- Results of the external base-directory and home crates at call time. -/
structure Platform where
  isWindows : Bool
  baseStrategyDataDir : Option String
  nativeStrategyDataDir : Option String
  homeDir : Option String
deriving DecidableEq

/-- Remove a variable from the environment; used to state fallthrough
properties ("behaves as if the variable were unset"). -/
def Env.erase (env : Env) (name : String) : Env :=
  fun s => if s = name then none else env s

namespace uv_dirs

/-- Environment variable name used by uv for directory resolution. -/
def XDG_BIN_HOME : String := "XDG_BIN_HOME"

/-- Environment variable name used by uv for directory resolution. -/
def XDG_DATA_HOME : String := "XDG_DATA_HOME"

/-- `parse_path`: a path from the given value, if non-empty. Unlike
`parse_xdg_path`, this accepts relative paths (used for uv override vars). -/
def parse_path (path : String) : Option String :=
  if path = "" then none else some path

/-- `parse_xdg_path`: a path if the given value is absolute, per the XDG
spec; relative values are treated as invalid. -/
def parse_xdg_path (path : String) : Option String :=
  if isAbsolutePath path then some path else none

/-- `user_state_dir`: `choose_base_strategy().data_dir().join("uv")`. -/
def user_state_dir (plat : Platform) : Option String :=
  plat.baseStrategyDataDir.map (fun dirs => joinPath dirs "uv")

/-- `legacy_user_state_dir`: `choose_native_strategy().data_dir().join("uv")`,
with an extra `data` segment appended only on Windows. -/
def legacy_user_state_dir (plat : Platform) : Option String :=
  (plat.nativeStrategyDataDir.map (fun dirs => joinPath dirs "uv")).map
    (fun dir => if plat.isWindows then joinPath dir "data" else dir)

/-- `user_executable_directory`: override variable, else `XDG_BIN_HOME`,
else `XDG_DATA_HOME` joined with the literal `../bin`, else
`$HOME/.local/bin`. -/
def user_executable_directory (override_variable : Option String) (env : Env)
    (plat : Platform) : Option String :=
  ((((override_variable.bind env).bind parse_path).orElse
      (fun _ => (env XDG_BIN_HOME).bind parse_xdg_path)).orElse
      (fun _ => ((env XDG_DATA_HOME).bind parse_xdg_path).map
        (fun path => joinPath path "../bin"))).orElse
      (fun _ => plat.homeDir.map (fun path => joinPath (joinPath path ".local") "bin"))

end uv_dirs

/-- The tools-directory resolution inlined in `count_uv` (uv.rs, lines
19-25): `UV_TOOL_DIR` if set (mapped verbatim to a path), else
`user_state_dir` or else `legacy_user_state_dir`, joined with `tools`. -/
def uv_tools_dir (env : Env) (plat : Platform) : Option String :=
  (env "UV_TOOL_DIR").orElse
    (fun _ => ((uv_dirs.user_state_dir plat).orElse
        (fun _ => uv_dirs.legacy_user_state_dir plat)).map
      (fun p => joinPath p "tools"))

/-- The counting step of `count_uv` (uv.rs, lines 28-31): ok entries whose
file type resolved and is a directory
(`.filter_map(Result::ok).filter(|e| e.file_type().map(|t| t.is_dir()).unwrap_or(false)).count()`). -/
def uvQualifyingCount (entries : List (Option DirEntry)) : Nat :=
  ((entries.filterMap id).filter (fun e => e.fileTypeIsDir.getD false)).length

/-- `count_uv` (uv.rs, lines 14-38): resolve the tools dir, read it, count
qualifying entries, and report `none` instead of a zero count. -/
def count_uv (env : Env) (plat : Platform) (fs : FS) : Option Nat :=
  match uv_tools_dir env plat with
  | none => none
  | some tools_dir =>
    match fs tools_dir with
    | none => none
    | some entries =>
      let count := uvQualifyingCount entries
      if count = 0 then none else some count

/-- `count_cargo` (cargo.rs, lines 3-11): `home::cargo_home()` (the explicit
`cargoHome` argument) joined with `bin`, then `read_dir(..).count()`, with
`none` instead of a zero count. The `count()` is over every yielded item. -/
def count_cargo (cargoHome : Option String) (fs : FS) : Option Nat :=
  match cargoHome with
  | none => none
  | some h =>
    match fs (joinPath h "bin") with
    | none => none
    | some rd =>
      match rd.length with
      | 0 => none
      | pkgs => some pkgs

/-- A directory entry whose type resolved to a directory. -/
def entryDir : DirEntry := ⟨some true⟩

/-- A directory entry whose type resolved to a regular file. -/
def entryFile : DirEntry := ⟨some false⟩

/-- Environment with only `UV_TOOL_DIR=/tools` set. -/
def envW : Env := fun s => if s = "UV_TOOL_DIR" then some "/tools" else none

/-- Environment with every variable unset. -/
def envNone : Env := fun _ => none

/-- Environment with `UV_TOOL_DIR` set to the empty string. -/
def envEmptyOverride : Env := fun s => if s = "UV_TOOL_DIR" then some "" else none

/-- Environment with a relative `XDG_BIN_HOME` and an absolute `XDG_DATA_HOME`. -/
def envRelBin : Env := fun s =>
  if s = "XDG_BIN_HOME" then some "rel/bin"
  else if s = "XDG_DATA_HOME" then some "/data" else none

/-- A Unix-flavoured platform state for concrete evaluations. -/
def platW : Platform :=
  { isWindows := false
    baseStrategyDataDir := some "/home/u/.local/share"
    nativeStrategyDataDir := some "/home/u/native"
    homeDir := some "/home/u" }

/-- A platform state where only the XDG-compliant base strategy resolves. -/
def platBase : Platform :=
  { isWindows := false
    baseStrategyDataDir := some "/data"
    nativeStrategyDataDir := none
    homeDir := none }

/-- The listing of the spec scenario: three subdirectories, one regular file. -/
def listW : List (Option DirEntry) :=
  [some entryDir, some entryDir, some entryDir, some entryFile]

/-- Concrete filesystem: `/tools` holds the scenario listing, `/c/bin` one
regular file, `/cargo/bin` five regular files; everything else fails. -/
def fsW : FS := fun p =>
  if p = "/tools" then some listW
  else if p = "/c/bin" then some [some entryFile]
  else if p = "/cargo/bin" then
    some [some entryFile, some entryFile, some entryFile, some entryFile, some entryFile]
  else none

/-- Concrete filesystem for the empty-override counterexample: only
`/data/uv/tools` is readable, holding one subdirectory. -/
def fsBase : FS := fun p => if p = "/data/uv/tools" then some [some entryDir] else none

/-- Concrete filesystem whose `/c/bin` listing yields a single item that
errors during iteration. -/
def fsErrEntry : FS := fun p => if p = "/c/bin" then some [none] else none


/-- Helper: an `orElse` chain is `none` exactly when both branches fail. -/
theorem orElse_eq_none_iff {α : Type} (a : Option α) (f : Unit → Option α) :
    a.orElse f = none ↔ a = none ∧ f () = none := by
  cases a <;> simp [Option.orElse]

/-- C3: with `UV_TOOL_DIR` set to a non-empty value, the resolved uv tools
directory is exactly that value, with no `tools` segment appended,
regardless of every other variable and of the platform state. -/
theorem uv_override_verbatim (env : Env) (plat : Platform) (v : String)
    (hset : env "UV_TOOL_DIR" = some v) (_hne : v ≠ "") :
    uv_tools_dir env plat = some v := by
  simp [uv_tools_dir, hset, Option.orElse]

/-- C3 witness at the concrete environment `envW`. -/
theorem uv_override_verbatim_witness : uv_tools_dir envW platW = some "/tools" :=
  uv_override_verbatim envW platW "/tools" (by decide) (by decide)

/-- C2: `count_uv` resolves the tools directory in priority order:
`UV_TOOL_DIR` override first; else the preferred persistent state
directory (the XDG-compliant base strategy's data dir joined with `uv`)
joined with `tools`; else the legacy persistent state directory (the
platform-native strategy's data dir joined with `uv`, plus a `data`
segment only on Windows) joined with `tools`; if all three fail,
`count_uv` returns none. -/
theorem uv_resolution_priority (env : Env) (plat : Platform) (fs : FS) :
    (∀ v, env "UV_TOOL_DIR" = some v → uv_tools_dir env plat = some v) ∧
    (∀ d, env "UV_TOOL_DIR" = none → plat.baseStrategyDataDir = some d →
      uv_tools_dir env plat = some (joinPath (joinPath d "uv") "tools")) ∧
    (∀ d, env "UV_TOOL_DIR" = none → plat.baseStrategyDataDir = none →
      plat.nativeStrategyDataDir = some d →
      uv_tools_dir env plat =
        some (joinPath (if plat.isWindows then joinPath (joinPath d "uv") "data"
          else joinPath d "uv") "tools")) ∧
    (env "UV_TOOL_DIR" = none → plat.baseStrategyDataDir = none →
      plat.nativeStrategyDataDir = none → count_uv env plat fs = none) := by
  refine ⟨?_, ?_, ?_, ?_⟩
  · intro v hv
    simp [uv_tools_dir, hv, Option.orElse]
  · intro d hv hb
    simp [uv_tools_dir, hv, Option.orElse, uv_dirs.user_state_dir, hb]
  · intro d hv hb hn
    simp [uv_tools_dir, hv, Option.orElse, uv_dirs.user_state_dir, hb,
      uv_dirs.legacy_user_state_dir, hn]
  · intro hv hb hn
    simp [count_uv, uv_tools_dir, hv, Option.orElse, uv_dirs.user_state_dir, hb,
      uv_dirs.legacy_user_state_dir, hn]

/-- C2 witness: with the override unset and the base strategy resolving to
`/data`, the preferred state directory `/data/uv/tools` is used. -/
theorem uv_resolution_priority_witness :
    uv_tools_dir envNone platBase = some "/data/uv/tools" := by
  have h := (uv_resolution_priority envNone platBase fsBase).2.1 "/data" rfl rfl
  exact h.trans (by decide)

/-- C1: both counters return none — never an error and never a literal
zero — when the tools directory cannot be resolved, cannot be read, or
contains zero qualifying entries; any some result carries a count of at
least 1. -/
theorem counters_none_on_failure_some_ge_one (env : Env) (plat : Platform)
    (fs : FS) (cargoHome : Option String) :
    (∀ n, count_uv env plat fs = some n → 1 ≤ n) ∧
    (∀ n, count_cargo cargoHome fs = some n → 1 ≤ n) ∧
    (uv_tools_dir env plat = none → count_uv env plat fs = none) ∧
    (∀ d, uv_tools_dir env plat = some d → fs d = none →
      count_uv env plat fs = none) ∧
    (∀ d l, uv_tools_dir env plat = some d → fs d = some l →
      uvQualifyingCount l = 0 → count_uv env plat fs = none) ∧
    (cargoHome = none → count_cargo cargoHome fs = none) ∧
    (∀ h, cargoHome = some h → fs (joinPath h "bin") = none →
      count_cargo cargoHome fs = none) ∧
    (∀ h, cargoHome = some h → fs (joinPath h "bin") = some [] →
      count_cargo cargoHome fs = none) := by
  refine ⟨?_, ?_, ?_, ?_, ?_, ?_, ?_, ?_⟩
  · intro n hn
    rcases hd : uv_tools_dir env plat with _ | d
    · simp [count_uv, hd] at hn
    · rcases hl : fs d with _ | l
      · simp [count_uv, hd, hl] at hn
      · by_cases hc : uvQualifyingCount l = 0
        · simp [count_uv, hd, hl, hc] at hn
        · simp [count_uv, hd, hl, hc] at hn
          omega
  · intro n hn
    rcases cargoHome with _ | h
    · simp [count_cargo] at hn
    · rcases hl : fs (joinPath h "bin") with _ | l
      · simp [count_cargo, hl] at hn
      · rcases l with _ | ⟨e, l2⟩
        · simp [count_cargo, hl] at hn
        · simp [count_cargo, hl] at hn
          omega
  · intro hd
    simp [count_uv, hd]
  · intro d hd hl
    simp [count_uv, hd, hl]
  · intro d l hd hl hc
    simp [count_uv, hd, hl, hc]
  · intro hc
    simp [count_cargo, hc]
  · intro h hc hl
    simp [count_cargo, hc, hl]
  · intro h hc hl
    simp [count_cargo, hc, hl]

/-- C1 witness: concrete positive counts obtained through the theorem. -/
theorem counters_none_on_failure_some_ge_one_witness : 1 ≤ 3 ∧ 1 ≤ 5 :=
  ⟨(counters_none_on_failure_some_ge_one envW platW fsW (some "/cargo")).1 3
      (by decide),
   (counters_none_on_failure_some_ge_one envW platW fsW (some "/cargo")).2.1 5
      (by decide)⟩

/-- C9: both counters are pure functions of the environment variables,
platform identity, and filesystem state at call time: invocations under
identical state return identical results, with no cache carrying state
between calls. -/
theorem counters_pure (env1 env2 : Env) (plat1 plat2 : Platform)
    (fs1 fs2 : FS) (ch1 ch2 : Option String)
    (henv : env1 = env2) (hplat : plat1 = plat2) (hfs : fs1 = fs2)
    (hch : ch1 = ch2) :
    count_uv env1 plat1 fs1 = count_uv env2 plat2 fs2 ∧
    count_cargo ch1 fs1 = count_cargo ch2 fs2 := by
  subst henv
  subst hplat
  subst hfs
  subst hch
  exact ⟨rfl, rfl⟩

/-- C9 witness: two invocations at the same concrete state coincide. -/
theorem counters_pure_witness :
    count_uv envW platW fsW = count_uv envW platW fsW ∧
    count_cargo (some "/cargo") fsW = count_cargo (some "/cargo") fsW :=
  counters_pure envW envW platW platW fsW fsW (some "/cargo") (some "/cargo")
    rfl rfl rfl rfl

/-- C8: `count_cargo` resolves cargo home by the single `cargo_home` rule
(if it fails the whole chain fails and nothing is returned), appends the
fixed `bin` segment, and counts every entry of that directory: a bin
directory with N entries, N ≥ 1, yields some N. -/
theorem cargo_chain (cargoHome : Option String) (fs : FS) :
    (cargoHome = none → count_cargo cargoHome fs = none) ∧
    (∀ h l, cargoHome = some h → fs (joinPath h "bin") = some l →
      1 ≤ l.length → count_cargo cargoHome fs = some l.length) := by
  constructor
  · intro hc
    simp [count_cargo, hc]
  · intro h l hc hl hlen
    rcases l with _ | ⟨e, l2⟩
    · simp at hlen
    · simp [count_cargo, hc, hl]

/-- C8 witness: the spec scenario of five files under the cargo bin. -/
theorem cargo_chain_witness : count_cargo (some "/cargo") fsW = some 5 := by
  have h := (cargo_chain (some "/cargo") fsW).2 "/cargo"
    [some entryFile, some entryFile, some entryFile, some entryFile, some entryFile]
    rfl (by decide) (by decide)
  exact h.trans (by decide)

/-- C4 counterexample: with `UV_TOOL_DIR` set to the empty string,
`count_uv` does not behave as if the variable were unset: here the empty
value is taken verbatim (the read of the empty path fails, so `count_uv`
is none), while with the variable removed the preferred state directory
resolves and yields some 1. -/
theorem uv_override_empty_not_fallthrough :
    ¬ (count_uv envEmptyOverride platBase fsBase =
        count_uv (Env.erase envEmptyOverride "UV_TOOL_DIR") platBase fsBase) := by
  decide

/-- C4 amended: override resolution in `count_uv` succeeds whenever
`UV_TOOL_DIR` is set, the empty string included: the empty value is used
verbatim as the tools directory with no fallthrough to the state
directories, so when reading the empty path fails, `count_uv` returns
none. The set-and-non-empty rule of `parse_path` applies only to the
override variable of `user_executable_directory`, where an empty value
does fall through exactly as if no override variable were given. -/
theorem uv_override_empty_verbatim (env : Env) (plat : Platform) (fs : FS)
    (name : String) (hset : env "UV_TOOL_DIR" = some "") :
    uv_tools_dir env plat = some "" ∧
    (fs "" = none → count_uv env plat fs = none) ∧
    uv_dirs.parse_path "" = none ∧
    (env name = some "" →
      uv_dirs.user_executable_directory (some name) env plat =
        uv_dirs.user_executable_directory none env plat) := by
  refine ⟨?_, ?_, ?_, ?_⟩
  · simp [uv_tools_dir, hset, Option.orElse]
  · intro hfs
    have h1 : uv_tools_dir env plat = some "" := by
      simp [uv_tools_dir, hset, Option.orElse]
    simp [count_uv, h1, hfs]
  · rfl
  · intro hname
    simp [uv_dirs.user_executable_directory, hname, uv_dirs.parse_path]

/-- C4 amended witness at the concrete empty-override environment. -/
theorem uv_override_empty_verbatim_witness :
    count_uv envEmptyOverride platBase fsBase = none :=
  (uv_override_empty_verbatim envEmptyOverride platBase fsBase "UV_TOOL_DIR"
    (by decide)).2.1 (by decide)

/-- C6: `count_uv` counts exactly the entries of the resolved tools
directory whose type resolved to a directory; regular files among the
entries are excluded (appending a regular-file entry leaves the
qualifying count unchanged). -/
theorem uv_counts_only_directories (env : Env) (plat : Platform) (fs : FS)
    (d : String) (l : List (Option DirEntry))
    (hd : uv_tools_dir env plat = some d) (hl : fs d = some l) :
    count_uv env plat fs =
      (if ((l.filterMap id).filter
            (fun e => e.fileTypeIsDir == some true)).length = 0
        then none
        else some ((l.filterMap id).filter
          (fun e => e.fileTypeIsDir == some true)).length) ∧
    uvQualifyingCount (l ++ [some entryFile]) = uvQualifyingCount l := by
  have hfun : (fun e : DirEntry => e.fileTypeIsDir.getD false) =
      (fun e : DirEntry => e.fileTypeIsDir == some true) := by
    funext e
    rcases e with ⟨o⟩
    rcases o with _ | b
    · rfl
    · cases b <;> rfl
  constructor
  · simp only [count_uv, hd, hl, uvQualifyingCount, hfun]
  · simp [uvQualifyingCount, entryFile]

/-- C6 witness: the spec scenario, three subdirectories and one regular
file under the override tools directory, yields some 3. -/
theorem uv_counts_only_directories_witness : count_uv envW platW fsW = some 3 := by
  have h := (uv_counts_only_directories envW platW fsW "/tools" listW
    (by decide) (by decide)).1
  exact h.trans (by decide)

/-- C7 counterexample: `count_cargo` counts an item that errors during
iteration rather than skipping it: at a bin listing holding a single
erroring item (and zero ok entries, as the second conjunct records), the
skip rule of the claim would leave nothing to count, yet `count_cargo`
returns some 1. -/
theorem cargo_counts_error_entry :
    count_cargo (some "/c") fsErrEntry = some 1 ∧
    (([none] : List (Option DirEntry)).filterMap id).length = 0 := by
  decide

/-- C7 amended: in `count_uv`, an item that errors during iteration, or an
entry whose file type cannot be determined, is silently skipped — not
counted and not fatal; in `count_cargo`, erroring items do not cause the
counter to fail either, but they are counted like every other yielded
item, since the count runs over all items of the listing. -/
theorem entry_error_handling (env : Env) (plat : Platform) (fs : FS)
    (cargoHome : Option String) (l : List (Option DirEntry)) (e : DirEntry) :
    uvQualifyingCount (none :: l) = uvQualifyingCount l ∧
    (e.fileTypeIsDir = none →
      uvQualifyingCount (some e :: l) = uvQualifyingCount l) ∧
    (∀ d, uv_tools_dir env plat = some d → fs d = some l →
      count_uv env plat fs =
        (if uvQualifyingCount l = 0 then none else some (uvQualifyingCount l))) ∧
    (∀ h, cargoHome = some h → fs (joinPath h "bin") = some l →
      count_cargo cargoHome fs =
        (if l.length = 0 then none else some l.length)) := by
  refine ⟨?_, ?_, ?_, ?_⟩
  · simp [uvQualifyingCount]
  · intro he
    simp [uvQualifyingCount, he]
  · intro d hd hl
    simp [count_uv, hd, hl]
  · intro h hc hl
    rcases l with _ | ⟨x, l2⟩
    · simp [count_cargo, hc, hl]
    · simp [count_cargo, hc, hl]

/-- C7 amended witness: the erroring item under the cargo bin is counted
and causes no failure. -/
theorem entry_error_handling_witness :
    count_cargo (some "/c") fsErrEntry = some 1 ∧
    uvQualifyingCount [none] = uvQualifyingCount [] := by
  constructor
  · have h := (entry_error_handling envNone platBase fsErrEntry (some "/c")
      [none] entryDir).2.2.2 "/c" rfl (by decide)
    exact h.trans (by decide)
  · exact (entry_error_handling envNone platBase fsErrEntry (some "/c")
      [] entryDir).1

/-- C5: an XDG variable set to a relative path is treated as invalid and
skipped exactly as if the variable were unset: `parse_xdg_path` rejects
the value and `user_executable_directory` falls through to the next
source, with no error raised. -/
theorem xdg_relative_skipped (ov : Option String) (env : Env)
    (plat : Platform) :
    (∀ v, isAbsolutePath v = false → uv_dirs.parse_xdg_path v = none) ∧
    (∀ v, env uv_dirs.XDG_BIN_HOME = some v → isAbsolutePath v = false →
      ov ≠ some uv_dirs.XDG_BIN_HOME →
      uv_dirs.user_executable_directory ov env plat =
        uv_dirs.user_executable_directory ov (env.erase uv_dirs.XDG_BIN_HOME) plat) ∧
    (∀ v, env uv_dirs.XDG_DATA_HOME = some v → isAbsolutePath v = false →
      ov ≠ some uv_dirs.XDG_DATA_HOME →
      uv_dirs.user_executable_directory ov env plat =
        uv_dirs.user_executable_directory ov (env.erase uv_dirs.XDG_DATA_HOME) plat) := by
  refine ⟨?_, ?_, ?_⟩
  · intro v hrel
    simp [uv_dirs.parse_xdg_path, hrel]
  · intro v hv hrel hov
    have hov2 : ov.bind (Env.erase env uv_dirs.XDG_BIN_HOME) = ov.bind env := by
      rcases ov with _ | name
      · rfl
      · have hne : name ≠ uv_dirs.XDG_BIN_HOME := fun h => hov (by rw [h])
        simp [Env.erase, hne]
    have hbinL : (env uv_dirs.XDG_BIN_HOME).bind uv_dirs.parse_xdg_path = none := by
      rw [hv]
      simp [uv_dirs.parse_xdg_path, hrel]
    have hbinR : Env.erase env uv_dirs.XDG_BIN_HOME uv_dirs.XDG_BIN_HOME = none := by
      simp [Env.erase]
    have hdata : Env.erase env uv_dirs.XDG_BIN_HOME uv_dirs.XDG_DATA_HOME =
        env uv_dirs.XDG_DATA_HOME := by
      simp [Env.erase, uv_dirs.XDG_BIN_HOME, uv_dirs.XDG_DATA_HOME]
    simp only [uv_dirs.user_executable_directory, hov2, hbinL, hbinR, hdata,
      Option.none_bind]
  · intro v hv hrel hov
    have hov2 : ov.bind (Env.erase env uv_dirs.XDG_DATA_HOME) = ov.bind env := by
      rcases ov with _ | name
      · rfl
      · have hne : name ≠ uv_dirs.XDG_DATA_HOME := fun h => hov (by rw [h])
        simp [Env.erase, hne]
    have hdataL : (env uv_dirs.XDG_DATA_HOME).bind uv_dirs.parse_xdg_path = none := by
      rw [hv]
      simp [uv_dirs.parse_xdg_path, hrel]
    have hdataR : Env.erase env uv_dirs.XDG_DATA_HOME uv_dirs.XDG_DATA_HOME = none := by
      simp [Env.erase]
    have hbin : Env.erase env uv_dirs.XDG_DATA_HOME uv_dirs.XDG_BIN_HOME =
        env uv_dirs.XDG_BIN_HOME := by
      simp [Env.erase, uv_dirs.XDG_BIN_HOME, uv_dirs.XDG_DATA_HOME]
    simp only [uv_dirs.user_executable_directory, hov2, hdataL, hdataR, hbin,
      Option.none_bind, Option.map_none']

/-- C5 witness: a relative `XDG_BIN_HOME` is skipped at a concrete state. -/
theorem xdg_relative_skipped_witness :
    uv_dirs.user_executable_directory none envRelBin platW =
      uv_dirs.user_executable_directory none
        (envRelBin.erase uv_dirs.XDG_BIN_HOME) platW :=
  (xdg_relative_skipped none envRelBin platW).2.1 "rel/bin" (by decide)
    (by decide) (by decide)

/-- C10: `user_executable_directory` resolves in order: override variable
(non-empty, relative accepted), else `XDG_BIN_HOME` (absolute only), else
`XDG_DATA_HOME` (absolute only) joined with the literal un-normalized
segment `../bin`, else the home directory joined with `.local/bin`; it
returns none exactly when every variable source fails and the home
directory cannot be resolved. -/
theorem user_executable_directory_order (ov : Option String) (env : Env)
    (plat : Platform) :
    (∀ name v, ov = some name → env name = some v → v ≠ "" →
      uv_dirs.user_executable_directory ov env plat = some v) ∧
    (∀ v, (ov.bind env).bind uv_dirs.parse_path = none →
      env uv_dirs.XDG_BIN_HOME = some v → isAbsolutePath v = true →
      uv_dirs.user_executable_directory ov env plat = some v) ∧
    (∀ v, (ov.bind env).bind uv_dirs.parse_path = none →
      (env uv_dirs.XDG_BIN_HOME).bind uv_dirs.parse_xdg_path = none →
      env uv_dirs.XDG_DATA_HOME = some v → isAbsolutePath v = true →
      uv_dirs.user_executable_directory ov env plat =
        some (joinPath v "../bin")) ∧
    (∀ h, (ov.bind env).bind uv_dirs.parse_path = none →
      (env uv_dirs.XDG_BIN_HOME).bind uv_dirs.parse_xdg_path = none →
      (env uv_dirs.XDG_DATA_HOME).bind uv_dirs.parse_xdg_path = none →
      plat.homeDir = some h →
      uv_dirs.user_executable_directory ov env plat =
        some (joinPath (joinPath h ".local") "bin")) ∧
    (uv_dirs.user_executable_directory ov env plat = none ↔
      ((ov.bind env).bind uv_dirs.parse_path = none ∧
       (env uv_dirs.XDG_BIN_HOME).bind uv_dirs.parse_xdg_path = none ∧
       (env uv_dirs.XDG_DATA_HOME).bind uv_dirs.parse_xdg_path = none ∧
       plat.homeDir = none)) := by
  refine ⟨?_, ?_, ?_, ?_, ?_⟩
  · intro name v hov hv hne
    subst hov
    simp [uv_dirs.user_executable_directory, hv, uv_dirs.parse_path, hne,
      Option.orElse]
  · intro v hover hv habs
    simp only [uv_dirs.user_executable_directory, hover]
    simp [hv, uv_dirs.parse_xdg_path, habs, Option.orElse]
  · intro v hover hbin hv habs
    simp only [uv_dirs.user_executable_directory, hover, hbin]
    simp [hv, uv_dirs.parse_xdg_path, habs, Option.orElse]
  · intro h hover hbin hdata hh
    simp only [uv_dirs.user_executable_directory, hover, hbin, hdata, hh]
    simp [Option.orElse]
  · simp [uv_dirs.user_executable_directory, orElse_eq_none_iff,
      Option.map_eq_none', and_assoc]

/-- C10 witness: a non-empty relative override value is used verbatim,
ahead of every other source. -/
theorem user_executable_directory_order_witness :
    uv_dirs.user_executable_directory (some "XDG_BIN_HOME") envRelBin platW =
      some "rel/bin" :=
  (user_executable_directory_order (some "XDG_BIN_HOME") envRelBin platW).1
    "XDG_BIN_HOME" "rel/bin" rfl (by decide) (by decide)
